import Mathlib

/-!
Verification of the tweet-generation client core: token-bucket rate limiter
(src/src/services/rate_limiter.py), retry/backoff executors
(src/src/utils/retry_handler.py), response validation
(src/src/models/tweet_models.py), the generation-with-validation loop
(src/src/services/tweet_generator.py, src/src/services/api_client.py) and
prompt building (src/src/utils/prompt_template.py).

Python floats are modelled as rationals; wall-clock instants are rationals,
and every time-dependent operation takes the current instant as an explicit
argument.  Python `int(x)` truncates toward zero; `round(x, n)` rounds
half-to-even at n decimal places; both are modelled below.
-/

/-- Python `round`-to-integer: nearest integer, ties to even. -/
def pyRoundHalfEven (q : ℚ) : ℤ :=
  let f : ℤ := ⌊q⌋
  let r : ℚ := q - f
  if r < 1/2 then f
  else if 1/2 < r then f + 1
  else if f % 2 = 0 then f else f + 1

/-- Python `round(x, 2)`. -/
def pyRound2 (q : ℚ) : ℚ := (pyRoundHalfEven (q * 100) : ℚ) / 100

/-- Python `round(x, 1)`. -/
def pyRound1 (q : ℚ) : ℚ := (pyRoundHalfEven (q * 10) : ℚ) / 10

/-- Python `int(x)` on a float: truncation toward zero. -/
def pyInt (q : ℚ) : ℤ := if 0 ≤ q then ⌊q⌋ else ⌈q⌉

/-- Python `s.strip()`: drop leading and trailing whitespace (modelled on
the character list so that it evaluates by reduction). -/
def pyStrip (s : String) : String :=
  ⟨(((s.data.dropWhile Char.isWhitespace).reverse).dropWhile
      Char.isWhitespace).reverse⟩

/-- Python `s.lower()`. -/
def pyLower (s : String) : String := ⟨s.data.map Char.toLower⟩

/-- Token count of Python `s.split()`: the number of maximal runs of
non-whitespace characters. -/
def pySplitCount (s : String) : ℕ :=
  (s.data.foldl
    (fun st c =>
      if c.isWhitespace then (false, st.2)
      else if st.1 then st else (true, st.2 + 1))
    ((false, 0) : Bool × ℕ)).2

/-- State of `TokenBucket` (rate_limiter.py lines 5-20): capacity,
refill rate in tokens per second, current token count, and the instant of
the last refill.  The lock serialises calls; each call is one atomic step. -/
structure TokenBucket where
  capacity : ℚ
  refill_rate : ℚ
  tokens : ℚ
  last_refill : ℚ
  deriving Repr, DecidableEq

/-- `TokenBucket.__init__`: starts with a full bucket. -/
def TokenBucket.init (capacity refill_rate t0 : ℚ) : TokenBucket :=
  { capacity := capacity, refill_rate := refill_rate,
    tokens := capacity, last_refill := t0 }

/-- `TokenBucket._refill_tokens` at instant `now`:
`tokens := min(capacity, tokens + elapsed * refill_rate)`, stamp `now`. -/
def TokenBucket.refillTokens (now : ℚ) (b : TokenBucket) : TokenBucket :=
  { b with tokens := min b.capacity (b.tokens + (now - b.last_refill) * b.refill_rate),
           last_refill := now }

/-- `TokenBucket.consume(tokens=n)` at instant `now`: refill, then deduct
`n` and answer `true` when at least `n` tokens are present, else answer
`false` with no further change. -/
def TokenBucket.consume (now : ℚ) (n : ℕ) (b : TokenBucket) : Bool × TokenBucket :=
  let b' := b.refillTokens now
  if (n : ℚ) ≤ b'.tokens then
    (true, { b' with tokens := b'.tokens - n })
  else
    (false, b')

/-- The dictionary returned by `TokenBucket.get_status`. -/
structure BucketStatus where
  current_tokens : ℚ
  capacity : ℚ
  refill_rate_per_minute : ℚ
  next_token_in_seconds : ℚ
  bucket_full : Bool
  deriving Repr, DecidableEq

/-- `TokenBucket.get_status` at instant `now`: refills, then reports. -/
def TokenBucket.get_status (now : ℚ) (b : TokenBucket) : BucketStatus × TokenBucket :=
  let b' := b.refillTokens now
  let time_per_token : ℚ := if 0 < b'.refill_rate then 1 / b'.refill_rate else 0
  let tokens_needed : ℚ := max 0 (1 - b'.tokens)
  let next_token_time : ℚ := tokens_needed * time_per_token
  ({ current_tokens := pyRound2 b'.tokens,
     capacity := b'.capacity,
     refill_rate_per_minute := pyRound2 (b'.refill_rate * 60),
     next_token_in_seconds := if 0 < next_token_time then pyRound1 next_token_time else 0,
     bucket_full := decide (b'.capacity ≤ b'.tokens) }, b')

/-- `TokenBucket.time_until_available(tokens=n)` at instant `now`: refills,
then reports the wait (`none` models `float(inf)` for a zero rate). -/
def TokenBucket.time_until_available (now : ℚ) (n : ℕ) (b : TokenBucket) :
    Option ℚ × TokenBucket :=
  let b' := b.refillTokens now
  if (n : ℚ) ≤ b'.tokens then (some 0, b')
  else if 0 < b'.refill_rate then (some (((n : ℚ) - b'.tokens) / b'.refill_rate), b')
  else (none, b')

/-- States of a bucket reachable from creation by `consume`, `get_status`
and `time_until_available` steps taken at non-decreasing instants. -/
inductive TokenBucket.Reachable (cap rate : ℚ) : TokenBucket → Prop
  | init (t0 : ℚ) : TokenBucket.Reachable cap rate (TokenBucket.init cap rate t0)
  | consume (b : TokenBucket) (now : ℚ) (n : ℕ) (hnow : b.last_refill ≤ now)
      (hb : TokenBucket.Reachable cap rate b) :
      TokenBucket.Reachable cap rate (TokenBucket.consume now n b).2
  | status (b : TokenBucket) (now : ℚ) (hnow : b.last_refill ≤ now)
      (hb : TokenBucket.Reachable cap rate b) :
      TokenBucket.Reachable cap rate (TokenBucket.get_status now b).2
  | timeUntil (b : TokenBucket) (now : ℚ) (n : ℕ) (hnow : b.last_refill ≤ now)
      (hb : TokenBucket.Reachable cap rate b) :
      TokenBucket.Reachable cap rate (TokenBucket.time_until_available now n b).2

/-- `RateLimiter` (rate_limiter.py lines 80-113): a bucket sized by the
per-minute limit, refilling at `limit / 60` tokens per second. -/
structure RateLimiter where
  requests_per_minute : ℕ
  bucket : TokenBucket
  deriving Repr, DecidableEq

/-- `RateLimiter.__init__`. -/
def RateLimiter.init (rpm : ℕ) (t0 : ℚ) : RateLimiter :=
  { requests_per_minute := rpm,
    bucket := TokenBucket.init (rpm : ℚ) ((rpm : ℚ) / 60) t0 }

/-- `RateLimiter.is_allowed`: consume one token. -/
def RateLimiter.is_allowed (now : ℚ) (rl : RateLimiter) : Bool × RateLimiter :=
  let r := rl.bucket.consume now 1
  (r.1, { rl with bucket := r.2 })

/-- The dictionary returned by `RateLimiter.get_rate_limit_status`. -/
structure RateStatus where
  allowed : Bool
  remaining_requests : ℤ
  limit_per_minute : ℕ
  reset_in_seconds : ℚ
  bucket_status : BucketStatus
  deriving Repr, DecidableEq

/-- `RateLimiter.get_rate_limit_status`: delegates to the bucket status;
`remaining_requests` is `int(status["current_tokens"])` where
`current_tokens` is the token count rounded to two decimals. -/
def RateLimiter.get_rate_limit_status (now : ℚ) (rl : RateLimiter) :
    RateStatus × RateLimiter :=
  let st := (rl.bucket.get_status now).1
  ({ allowed := decide (1 ≤ st.current_tokens),
     remaining_requests := pyInt st.current_tokens,
     limit_per_minute := rl.requests_per_minute,
     reset_in_seconds := st.next_token_in_seconds,
     bucket_status := st }, { rl with bucket := (rl.bucket.get_status now).2 })

/-- Exceptions seen by the retry executors (retry_handler.py).
`retryableHTTP` is `RetryableHTTPError(status_code, message)`;
`connectionError` and `timeout` are the `requests` transport exceptions;
`other` is any other exception; `unknownRetryFailure` is the
`Exception("Unknown retry failure")` fallback; `retryError` is the
`tenacity.RetryError` raised when tenacity exhausts its attempts. -/
inductive PyError where
  | retryableHTTP (status : ℕ) (message : String)
  | connectionError (message : String)
  | timeout (message : String)
  | other (message : String)
  | unknownRetryFailure
  | retryError (last : PyError)
  deriving Repr, DecidableEq

/-- `is_retryable_error` (retry_handler.py lines 24-30): a
`RetryableHTTPError` is retryable exactly when its status is 5xx;
connection errors and timeouts are retryable; everything else is not. -/
def is_retryable_error : PyError → Bool
  | .retryableHTTP status _ => 500 ≤ status ∧ status < 600
  | .connectionError _ => true
  | .timeout _ => true
  | _ => false

/-- The classification used by the tenacity variant
(`retry_if_exception_type((RetryableHTTPError, ConnectionError, Timeout))`,
retry_handler.py line 46): it looks only at the exception type, never at
the HTTP status code. -/
def tenacityRetryType : PyError → Bool
  | .retryableHTTP _ _ => true
  | .connectionError _ => true
  | .timeout _ => true
  | _ => false

/-- The structured log records emitted by `retry_with_custom_backoff`;
attempt numbers are 1-based as in the Python keyword arguments. -/
inductive LogEvent where
  | callAttempt (attempt maxAttempts : ℕ)
  | retrySucceeded (finalAttempt : ℕ)
  | nonRetryableError (attempt : ℕ)
  | allAttemptsFailed (finalAttempt maxAttempts : ℕ)
  | retryAttemptFailed (attempt : ℕ) (nextDelaySeconds : ℚ)
  deriving Repr, DecidableEq

/-- Observable outcome of one run of a retry executor: the value returned
or exception propagated, the number of invocations of the wrapped
operation, the sleeps performed (in order), and the log records. -/
structure RunResult (α : Type) where
  result : Except PyError α
  calls : ℕ
  sleeps : List ℚ
  logs : List LogEvent
  deriving Repr

/-- Loop body of `retry_with_custom_backoff` (retry_handler.py lines
65-89).  `f k` is the outcome of the (0-based) k-th invocation of the
wrapped operation, `jit k` the value drawn by `random.uniform(0, 0.1)`
before the sleep that follows attempt `k`.  `fuel` is the number of loop
iterations left (`max_attempts - attempt`); the Python guard
`attempt == max_attempts - 1` is `fuel = 1` here. -/
def customBackoffGo {α : Type} (f : ℕ → Except PyError α) (base : ℚ)
    (jit : ℕ → ℚ) (maxAttempts : ℕ) : ℕ → ℕ → RunResult α
  | 0, _ =>
    { result := .error .unknownRetryFailure, calls := 0, sleeps := [], logs := [] }
  | fuel + 1, attempt =>
    match f attempt with
    | .ok a =>
      { result := .ok a, calls := 1, sleeps := [],
        logs := [.callAttempt (attempt + 1) maxAttempts] ++
          (if 0 < attempt then [.retrySucceeded (attempt + 1)] else []) }
    | .error e =>
      if is_retryable_error e then
        if fuel = 0 then
          { result := .error e, calls := 1, sleeps := [],
            logs := [.callAttempt (attempt + 1) maxAttempts,
                     .allAttemptsFailed (attempt + 1) maxAttempts] }
        else
          let d := base * 2 ^ attempt + jit attempt
          let r := customBackoffGo f base jit maxAttempts fuel (attempt + 1)
          { result := r.result, calls := r.calls + 1, sleeps := d :: r.sleeps,
            logs := [.callAttempt (attempt + 1) maxAttempts,
                     .retryAttemptFailed (attempt + 1) d] ++ r.logs }
      else
        { result := .error e, calls := 1, sleeps := [],
          logs := [.callAttempt (attempt + 1) maxAttempts,
                   .nonRetryableError (attempt + 1)] }

/-- `retry_with_custom_backoff(func, max_attempts, base_delay)`:
runs the loop from attempt 0 with `max_attempts` iterations of fuel.
With `max_attempts = 0` the loop body never runs and the function raises
`Exception("Unknown retry failure")`. -/
def retry_with_custom_backoff {α : Type} (f : ℕ → Except PyError α)
    (base : ℚ) (jit : ℕ → ℚ) (maxAttempts : ℕ) : RunResult α :=
  customBackoffGo f base jit maxAttempts maxAttempts 0

/-- Loop body of `retry_with_tenacity` (retry_handler.py lines 32-58),
following tenacity semantics for `Retrying(stop=stop_after_attempt(m),
wait=wait_exponential(multiplier=base, max=maxD), retry=
retry_if_exception_type(...))`: an exception whose type is not in the
retried tuple is re-raised at once; otherwise, when attempts remain, the
executor sleeps `max(0, min(base * 2^(attempt_number - 1), maxD))` and
retries; when the stop condition is reached it raises `RetryError`
wrapping the last exception (the call site does not pass `reraise`).
There is no jitter.  `attempt` is 0-based; `fuel` counts attempts left. -/
def tenacityGo {α : Type} (f : ℕ → Except PyError α) (base maxD : ℚ) :
    ℕ → ℕ → RunResult α
  | 0, _ =>
    { result := .error .unknownRetryFailure, calls := 0, sleeps := [], logs := [] }
  | fuel + 1, attempt =>
    match f attempt with
    | .ok a => { result := .ok a, calls := 1, sleeps := [], logs := [] }
    | .error e =>
      if tenacityRetryType e then
        if fuel = 0 then
          { result := .error (.retryError e), calls := 1, sleeps := [], logs := [] }
        else
          let d := max 0 (min (base * 2 ^ attempt) maxD)
          let r := tenacityGo f base maxD fuel (attempt + 1)
          { result := r.result, calls := r.calls + 1, sleeps := d :: r.sleeps,
            logs := r.logs }
      else
        { result := .error e, calls := 1, sleeps := [], logs := [] }

/-- `retry_with_tenacity(func, max_attempts, base_delay, max_delay)`. -/
def retry_with_tenacity {α : Type} (f : ℕ → Except PyError α)
    (base maxD : ℚ) (maxAttempts : ℕ) : RunResult α :=
  tenacityGo f base maxD maxAttempts 0

/-- Failure modes of a `TweetResponse(**data)` construction
(tweet_models.py lines 4-24), in pydantic field order. -/
inductive TweetValidationError where
  | tweetTooShort
  | tweetTooLong
  | tweetEmpty
  | wordCountNotPositive
  | wordCountMismatch (claimed actual : ℤ)
  | invalidSentiment (value : String)
  deriving Repr, DecidableEq

/-- A validated `TweetResponse`: `tweet` already stripped. -/
structure TweetResponse where
  tweet : String
  word_count : ℤ
  sentiment : String
  deriving Repr, DecidableEq

/-- The `tweet` field: `Field(min_length=1, max_length=280)` on the raw
string, then `validate_tweet_content` rejects whitespace-only text and
strips the value. -/
def validateTweetField (t : String) : Except TweetValidationError String :=
  if t.length < 1 then .error .tweetTooShort
  else if 280 < t.length then .error .tweetTooLong
  else if pyStrip t = "" then .error .tweetEmpty
  else .ok (pyStrip t)

/-- The `word_count` field: `Field(gt=0)`, then
`validate_word_count_accuracy` compares the claim against
`len(values["tweet"].split())` with tolerance 2 — run only when the
`tweet` field validated (`if "tweet" in values`). -/
def validateWordCountField (tweetVal : Option String) (w : ℤ) :
    Except TweetValidationError ℤ :=
  if w ≤ 0 then .error .wordCountNotPositive
  else
    match tweetVal with
    | none => .ok w
    | some tw =>
      if 2 < |w - (pySplitCount tw : ℤ)| then
        .error (.wordCountMismatch w (pySplitCount tw))
      else .ok w

/-- The `sentiment` field: `Literal["positive", "negative", "neutral"]`. -/
def validateSentimentField (s : String) : Except TweetValidationError String :=
  if s = "positive" ∨ s = "negative" ∨ s = "neutral" then .ok s
  else .error (.invalidSentiment s)

/-- `TweetResponse(tweet=t, word_count=w, sentiment=s)`: fields validated
in declaration order; the word-count cross-check sees the stripped tweet
only when the tweet field itself validated. -/
def TweetResponse.validate (t : String) (w : ℤ) (s : String) :
    Except TweetValidationError TweetResponse :=
  match validateTweetField t with
  | .error e => .error e
  | .ok tw =>
    match validateWordCountField (some tw) w with
    | .error e => .error e
    | .ok w' =>
      match validateSentimentField s with
      | .error e => .error e
      | .ok s' => .ok { tweet := tw, word_count := w', sentiment := s' }

/-- Errors raised inside one generation attempt
(api_client.py `call_api` and tweet_generator.py
`validate_and_parse_response`); all are caught alike by the retry loop. -/
inductive GenError where
  | apiError (status : ℕ)
  | invalidResponseStructure
  | requestFailed (message : String)
  | noJSONFound
  | invalidJSONFormat (message : String)
  | schemaValidationFailed (e : TweetValidationError)
  deriving Repr, DecidableEq

/-- What one HTTP round trip to the Gemini endpoint produced:
a response with a status code (with `goodStructure` recording whether a
200 body carries `candidates[0].content.parts[0].text`), or a
`requests.RequestException`. -/
inductive HTTPOutcome where
  | response (status : ℕ) (goodStructure : Bool) (text : String)
  | transportFail (message : String)
  deriving Repr, DecidableEq

/-- `GeminiAPIClient.call_api` (api_client.py lines 16-43): returns the
stripped text on a well-formed 200, raises
`Exception("Invalid response structure")` on a malformed 200, raises
`Exception("API error: {status}")` on any other status — note a 4xx
becomes a plain `Exception`, indistinguishable in type from a 5xx — and
raises `Exception("Request failed: ...")` on a transport failure. -/
def call_api : HTTPOutcome → Except GenError String
  | .transportFail m => .error (.requestFailed m)
  | .response status good text =>
    if status = 200 then
      if good then .ok (pyStrip text) else .error .invalidResponseStructure
    else .error (.apiError status)

/-- `str(e)` for the error message embedded in the failure outcome. -/
def GenError.message : GenError → String
  | .apiError status => "API error: " ++ toString status
  | .invalidResponseStructure => "Invalid response structure"
  | .requestFailed m => "Request failed: " ++ m
  | .noJSONFound => "No JSON found in response"
  | .invalidJSONFormat m => "Invalid JSON format: " ++ m
  | .schemaValidationFailed _ => "Schema validation failed"

/-- The `APIResponse` pydantic wrapper (tweet_models.py lines 32-37). -/
structure APIResponse where
  success : Bool
  data : Option TweetResponse
  error : Option String
  retry_count : ℕ
  deriving Repr, DecidableEq

/-- Loop body of `JSONTweetGenerator.generate_tweet_with_retry`
(tweet_generator.py lines 61-96).  `api k` is what `call_api` returned on
the k-th (0-based) attempt — the prompt is identical on each attempt, the
transport outcome may differ — and `validate` models
`validate_and_parse_response`.  Any exception from either is caught by
the blanket `except Exception` and retried; `fuel = 1` is the Python
guard `attempt == max_retries`.  Besides the response, the number of
`call_api` invocations is returned. -/
def generateGo (api : ℕ → Except GenError String)
    (validate : String → Except GenError TweetResponse) (maxRetries : ℕ) :
    ℕ → ℕ → ℕ → Option GenError → APIResponse × ℕ
  | 0, _, rc, lastError =>
    ({ success := false, data := none,
       error := some ("Failed after " ++ toString (maxRetries + 1) ++
         " attempts: " ++ (lastError.map GenError.message).getD "None"),
       retry_count := rc }, 0)
  | fuel + 1, attempt, rc, _ =>
    match (api attempt).bind validate with
    | .ok tw =>
      ({ success := true, data := some tw, error := none, retry_count := rc }, 1)
    | .error e =>
      if fuel = 0 then
        ({ success := false, data := none,
           error := some ("Failed after " ++ toString (maxRetries + 1) ++
             " attempts: " ++ e.message),
           retry_count := rc + 1 }, 1)
      else
        let r := generateGo api validate maxRetries fuel (attempt + 1) (rc + 1) (some e)
        (r.1, r.2 + 1)

/-- `generate_tweet_with_retry(topic, tone, max_words, max_retries)`:
up to `max_retries + 1` attempts, each re-issuing the prompt. -/
def generate_tweet_with_retry (api : ℕ → Except GenError String)
    (validate : String → Except GenError TweetResponse) (maxRetries : ℕ) :
    APIResponse × ℕ :=
  generateGo api validate maxRetries (maxRetries + 1) 0 0 none

/-- `TweetTemplate.VALID_TONES` (prompt_template.py line 43). -/
def VALID_TONES : List String :=
  ["professional", "humorous", "casual", "excited", "informative", "sarcastic"]

/-- `TweetTemplate._validate_variables` (prompt_template.py lines 59-71):
tone is lowercased before the membership test; `max_words` must lie in
[5, 50]; the stripped topic must be non-empty with at least 2 characters.
Error messages abbreviate the Python text. -/
def validateTweetVariables (topic tone : String) (mw : ℤ) : Except String Unit :=
  if ¬ VALID_TONES.contains (pyLower tone) then
    .error "Invalid tone. Must be one of: professional, humorous, casual, excited, informative, sarcastic"
  else if ¬ (5 ≤ mw ∧ mw ≤ 50) then
    .error "max_words must be an integer between 5 and 50"
  else if pyStrip topic = "" ∨ (pyStrip topic).length < 2 then
    .error "topic must be a non-empty string with at least 2 characters"
  else .ok ()

/-- The `TweetTemplate` template with `{tone}`, `{topic}` and
`{max_words}` substituted (prompt_template.py lines 46-55). -/
def tweetPromptText (topic tone : String) (mw : ℤ) : String :=
  "Generate a " ++ tone ++ " tweet about " ++ topic ++
  ". \nThe tweet should be engaging and appropriate for social media.\nMaximum words: " ++
  toString mw ++
  "\nRequirements:\n- Keep it concise and impactful\n- Use appropriate tone throughout\n- Make it shareable and relevant\n- Do not include hashtags or mentions\n\nTweet:"

/-- `TweetTemplate.generate_tweet_prompt(topic, tone, max_words)`:
lowercases the tone, validates all variables (which lowercases once
more), then substitutes into the template. -/
def generate_tweet_prompt (topic tone : String) (mw : ℤ) : Except String String :=
  match validateTweetVariables topic (pyLower tone) mw with
  | .error e => .error e
  | .ok _ => .ok (tweetPromptText topic (pyLower tone) mw)

/-- An always-404 transport: every attempt reaches the server and comes
back with status 404. -/
def api404 : ℕ → Except GenError String := fun _ => call_api (.response 404 false "")

/-- An operation that fails with `RetryableHTTPError(404, ...)` on every
invocation. -/
def failing404 : ℕ → Except PyError Unit := fun _ => .error (.retryableHTTP 404 "Not Found")

/-- An operation that fails with `requests.exceptions.Timeout` on every
invocation. -/
def failingTimeout : ℕ → Except PyError Unit := fun _ => .error (.timeout "Request timeout")

/-- A jitter draw of exactly 0, inside the `uniform(0, 0.1)` support. -/
def zeroJitter : ℕ → ℚ := fun _ => 0

/-- An operation that fails with a plain (non-retryable) exception on
every invocation. -/
def failingOther : ℕ → Except PyError Unit := fun _ => .error (.other "Bad Request")

/-- A validator instance for runs whose transport never succeeds, so the
validator is never consulted. -/
def unusedValidator : String → Except GenError TweetResponse :=
  fun _ => .error .noJSONFound

/- ---------------------------------------------------------------------
Theorems.
--------------------------------------------------------------------- -/

/-- After a refill at an instant not earlier than the last refill, the
token count stays within [0, capacity]. -/
theorem refillTokens_bounds (cap rate : ℚ) (b : TokenBucket) (now : ℚ)
    (hcapb : b.capacity = cap) (hrateb : b.refill_rate = rate)
    (hcap : 0 < cap) (hrate : 0 < rate)
    (h0 : 0 ≤ b.tokens) (hnow : b.last_refill ≤ now) :
    0 ≤ (b.refillTokens now).tokens ∧ (b.refillTokens now).tokens ≤ cap := by
  unfold TokenBucket.refillTokens
  constructor
  · apply le_min
    · rw [hcapb]; exact hcap.le
    · have helapsed : 0 ≤ now - b.last_refill := sub_nonneg.mpr hnow
      have : 0 ≤ (now - b.last_refill) * b.refill_rate := by
        apply mul_nonneg helapsed
        rw [hrateb]; exact hrate.le
      linarith
  · rw [← hcapb]; exact min_le_left _ _

/-- The state component of `get_status` is exactly the refilled bucket. -/
theorem get_status_snd (now : ℚ) (b : TokenBucket) :
    (b.get_status now).2 = b.refillTokens now := rfl

/-- The state component of `time_until_available` is exactly the refilled
bucket. -/
theorem time_until_available_snd (now : ℚ) (n : ℕ) (b : TokenBucket) :
    (b.time_until_available now n).2 = b.refillTokens now := by
  simp only [TokenBucket.time_until_available]
  split
  · rfl
  · split <;> rfl

/-- `consume` with enough refilled tokens: deduct and answer true. -/
theorem consume_true_eq (b : TokenBucket) (now : ℚ) (n : ℕ)
    (h : (n : ℚ) ≤ (b.refillTokens now).tokens) :
    b.consume now n =
      (true, { b.refillTokens now with
               tokens := (b.refillTokens now).tokens - n }) := by
  unfold TokenBucket.consume
  rw [if_pos h]

/-- `consume` with too few refilled tokens: answer false, keep the
refilled state. -/
theorem consume_false_eq (b : TokenBucket) (now : ℚ) (n : ℕ)
    (h : (b.refillTokens now).tokens < (n : ℚ)) :
    b.consume now n = (false, b.refillTokens now) := by
  unfold TokenBucket.consume
  rw [if_neg (not_le.mpr h)]

/-- Every reachable state of a positive-capacity, positive-rate bucket
keeps its configuration and satisfies `0 ≤ tokens ≤ capacity`. -/
theorem tokenBucket_reachable_bounds (cap rate : ℚ)
    (hcap : 0 < cap) (hrate : 0 < rate) :
    ∀ b, TokenBucket.Reachable cap rate b →
      b.capacity = cap ∧ b.refill_rate = rate ∧ 0 ≤ b.tokens ∧ b.tokens ≤ cap := by
  intro b hb
  induction hb with
  | init t0 => exact ⟨rfl, rfl, hcap.le, le_rfl⟩
  | consume b now n hnow hb ih =>
    obtain ⟨hc, hr, h0, _⟩ := ih
    have href := refillTokens_bounds cap rate b now hc hr hcap hrate h0 hnow
    rcases le_or_lt ((n : ℚ)) ((b.refillTokens now).tokens) with hguard | hguard
    · rw [consume_true_eq b now n hguard]
      refine ⟨hc, hr, ?_, ?_⟩
      · exact sub_nonneg.mpr hguard
      · have hn0 : (0 : ℚ) ≤ (n : ℚ) := Nat.cast_nonneg n
        have h2 := href.2
        show (b.refillTokens now).tokens - n ≤ cap
        linarith
    · rw [consume_false_eq b now n hguard]
      exact ⟨hc, hr, href.1, href.2⟩
  | status b now hnow hb ih =>
    obtain ⟨hc, hr, h0, _⟩ := ih
    have href := refillTokens_bounds cap rate b now hc hr hcap hrate h0 hnow
    rw [get_status_snd]
    exact ⟨hc, hr, href.1, href.2⟩
  | timeUntil b now n hnow hb ih =>
    obtain ⟨hc, hr, h0, _⟩ := ih
    have href := refillTokens_bounds cap rate b now hc hr hcap hrate h0 hnow
    rw [time_until_available_snd]
    exact ⟨hc, hr, href.1, href.2⟩

/-- C1.  `consume(n)` first refills, then: when the refilled count is at
least `n` it deducts exactly `n` and returns true; otherwise it returns
false and the state is exactly the refilled state — no deduction, no
other mutation. -/
theorem consume_refill_then_deduct (b : TokenBucket) (now : ℚ) (n : ℕ) :
    ((n : ℚ) ≤ (b.refillTokens now).tokens →
      b.consume now n =
        (true, { b.refillTokens now with
                 tokens := (b.refillTokens now).tokens - n })) ∧
    ((b.refillTokens now).tokens < (n : ℚ) →
      b.consume now n = (false, b.refillTokens now)) :=
  ⟨consume_true_eq b now n, consume_false_eq b now n⟩

/-- Witness for C1: a fresh 10-token bucket admits `consume(3)` at the
creation instant, deducting exactly 3 tokens. -/
theorem consume_refill_then_deduct_witness :
    (3 : ℚ) ≤ ((TokenBucket.init 10 (1/6) 0).refillTokens 0).tokens ∧
    (TokenBucket.init 10 (1/6) 0).consume 0 3 =
      (true, { (TokenBucket.init 10 (1/6) 0).refillTokens 0 with
               tokens := ((TokenBucket.init 10 (1/6) 0).refillTokens 0).tokens - 3 }) :=
  ⟨by norm_num [TokenBucket.init, TokenBucket.refillTokens],
   (consume_refill_then_deduct (TokenBucket.init 10 (1/6) 0) 0 3).1
     (by norm_num [TokenBucket.init, TokenBucket.refillTokens])⟩

/-- C2.  For capacity > 0 and refill rate > 0: a fresh bucket holds
exactly `capacity` tokens, and every state reachable through `consume`,
`get_status` and `time_until_available` (at non-decreasing instants)
satisfies `0 ≤ tokens ≤ capacity`. -/
theorem bucket_invariant (cap rate : ℚ) (hcap : 0 < cap) (hrate : 0 < rate) :
    (∀ t0, (TokenBucket.init cap rate t0).tokens = cap) ∧
    (∀ b, TokenBucket.Reachable cap rate b →
      b.capacity = cap ∧ 0 ≤ b.tokens ∧ b.tokens ≤ b.capacity) := by
  refine ⟨fun _ => rfl, fun b hb => ?_⟩
  obtain ⟨hc, _, h0, hle⟩ := tokenBucket_reachable_bounds cap rate hcap hrate b hb
  exact ⟨hc, h0, hc ▸ hle⟩

/-- Witness for C2: the concrete default bucket (10 tokens, 1/6 per
second), fresh and after one `consume(3)` step. -/
theorem bucket_invariant_witness :
    (TokenBucket.init 10 (1/6) 0).tokens = 10 ∧
    (0 ≤ ((TokenBucket.init 10 (1/6) 0).consume 0 3).2.tokens ∧
     ((TokenBucket.init 10 (1/6) 0).consume 0 3).2.tokens ≤
       ((TokenBucket.init 10 (1/6) 0).consume 0 3).2.capacity) := by
  refine ⟨(bucket_invariant 10 (1/6) (by norm_num) (by norm_num)).1 0, ?_⟩
  have h := (bucket_invariant 10 (1/6) (by norm_num) (by norm_num)).2
    ((TokenBucket.init 10 (1/6) 0).consume 0 3).2
    (TokenBucket.Reachable.consume (TokenBucket.init 10 (1/6) 0) 0 3 (by decide)
      (TokenBucket.Reachable.init 0))
  exact ⟨h.2.1, h.2.2⟩

/-- C10.  A request for strictly more tokens than the capacity is denied
in every reachable state, at every later instant: the refill caps the
count at `capacity < n`. -/
theorem consume_over_capacity_denied (cap rate : ℚ) (b : TokenBucket)
    (now : ℚ) (n : ℕ) (hcap : 0 < cap) (hrate : 0 < rate)
    (hb : TokenBucket.Reachable cap rate b) (hnow : b.last_refill ≤ now)
    (hn : cap < (n : ℚ)) :
    (b.consume now n).1 = false := by
  obtain ⟨hc, hr, h0, _⟩ := tokenBucket_reachable_bounds cap rate hcap hrate b hb
  have href := refillTokens_bounds cap rate b now hc hr hcap hrate h0 hnow
  unfold TokenBucket.consume
  rw [if_neg (not_le.mpr (lt_of_le_of_lt href.2 hn))]

/-- Witness for C10: `consume(11)` on the fresh default 10-token bucket
is denied. -/
theorem consume_over_capacity_denied_witness :
    ((TokenBucket.init 10 (1/6) 0).consume 0 11).1 = false :=
  consume_over_capacity_denied 10 (1/6) (TokenBucket.init 10 (1/6) 0) 0 11
    (by norm_num) (by norm_num) (TokenBucket.Reachable.init 0) (by decide)
    (by norm_num)

/-- Every error retryable to `is_retryable_error` is of a type tenacity
retries. -/
theorem retryable_tenacityType (e : PyError)
    (h : is_retryable_error e = true) : tenacityRetryType e = true := by
  cases e <;> simp_all [is_retryable_error, tenacityRetryType]

/-- Prepending the image of 0 to a shifted range image gives the image of
the next range. -/
theorem cons_map_range_shift {β : Type} (g : ℕ → β) (m : ℕ) :
    g 0 :: (List.range m).map (fun i => g (i + 1)) = (List.range (m + 1)).map g := by
  rw [List.range_succ_eq_map, List.map_cons, List.map_map]
  rfl

/-- Custom backoff loop under always-retryable failure: with `fuel ≥ 1`
iterations left starting at `attempt`, it makes exactly `fuel` calls,
propagates the outcome of the final invocation, sleeps the exponential
schedule, and logs the exhaustion record with the final 1-based attempt
number. -/
theorem customBackoffGo_allFail {α : Type} (f : ℕ → Except PyError α)
    (base : ℚ) (jit : ℕ → ℚ) (maxA : ℕ)
    (hf : ∀ k, ∃ e, f k = Except.error e ∧ is_retryable_error e = true) :
    ∀ fuel attempt, 1 ≤ fuel →
      (customBackoffGo f base jit maxA fuel attempt).calls = fuel ∧
      (customBackoffGo f base jit maxA fuel attempt).result = f (attempt + (fuel - 1)) ∧
      (customBackoffGo f base jit maxA fuel attempt).sleeps =
        (List.range (fuel - 1)).map
          (fun i => base * 2 ^ (attempt + i) + jit (attempt + i)) ∧
      LogEvent.allAttemptsFailed (attempt + fuel) maxA ∈
        (customBackoffGo f base jit maxA fuel attempt).logs := by
  intro fuel
  induction fuel with
  | zero => intro attempt h; exact absurd h (by omega)
  | succ n ih =>
    intro attempt _
    obtain ⟨e, hfe, hre⟩ := hf attempt
    rcases Nat.eq_zero_or_pos n with hn | hn
    · subst hn
      simp [customBackoffGo, hfe, hre]
    · have ihn := ih (attempt + 1)
      simp only [customBackoffGo, hfe, hre, if_true]
      rw [if_neg (by omega : ¬ n = 0)]
      obtain ⟨m, rfl⟩ : ∃ m, n = m + 1 := ⟨n - 1, by omega⟩
      obtain ⟨ihc, ihr, ihs, ihl⟩ := ihn (by omega)
      refine ⟨?_, ?_, ?_, ?_⟩
      · show (customBackoffGo f base jit maxA (m + 1) (attempt + 1)).calls + 1 = m + 1 + 1
        rw [ihc]
      · show (customBackoffGo f base jit maxA (m + 1) (attempt + 1)).result = _
        rw [ihr]
        congr 1
        omega
      · show (base * 2 ^ attempt + jit attempt) ::
          (customBackoffGo f base jit maxA (m + 1) (attempt + 1)).sleeps = _
        rw [ihs]
        have hidx : ∀ i, attempt + 1 + i = attempt + (i + 1) := fun i => by omega
        simp only [hidx, Nat.add_sub_cancel]
        exact cons_map_range_shift
          (fun i => base * 2 ^ (attempt + i) + jit (attempt + i)) m
      · show LogEvent.allAttemptsFailed (attempt + (m + 1 + 1)) maxA ∈
          LogEvent.callAttempt (attempt + 1) maxA ::
            LogEvent.retryAttemptFailed (attempt + 1)
              (base * 2 ^ attempt + jit attempt) ::
            (customBackoffGo f base jit maxA (m + 1) (attempt + 1)).logs
        have harith : attempt + (m + 1 + 1) = attempt + 1 + (m + 1) := by omega
        rw [harith]
        exact List.mem_cons_of_mem _ (List.mem_cons_of_mem _ ihl)

/-- Tenacity loop under failures of retried type: with `fuel ≥ 1`
attempts left starting at 0-based `attempt`, it makes exactly `fuel`
calls and sleeps the capped exponential schedule. -/
theorem tenacityGo_allFail {α : Type} (f : ℕ → Except PyError α)
    (base maxD : ℚ)
    (hf : ∀ k, ∃ e, f k = Except.error e ∧ tenacityRetryType e = true) :
    ∀ fuel attempt, 1 ≤ fuel →
      (tenacityGo f base maxD fuel attempt).calls = fuel ∧
      (tenacityGo f base maxD fuel attempt).sleeps =
        (List.range (fuel - 1)).map
          (fun i => max 0 (min (base * 2 ^ (attempt + i)) maxD)) := by
  intro fuel
  induction fuel with
  | zero => intro attempt h; exact absurd h (by omega)
  | succ n ih =>
    intro attempt _
    obtain ⟨e, hfe, hre⟩ := hf attempt
    rcases Nat.eq_zero_or_pos n with hn | hn
    · subst hn
      simp [tenacityGo, hfe, hre]
    · have ihn := ih (attempt + 1)
      simp only [tenacityGo, hfe, hre, if_true]
      rw [if_neg (by omega : ¬ n = 0)]
      obtain ⟨m, rfl⟩ : ∃ m, n = m + 1 := ⟨n - 1, by omega⟩
      obtain ⟨ihc, ihs⟩ := ihn (by omega)
      refine ⟨?_, ?_⟩
      · show (tenacityGo f base maxD (m + 1) (attempt + 1)).calls + 1 = m + 1 + 1
        rw [ihc]
      · show (max 0 (min (base * 2 ^ attempt) maxD)) ::
          (tenacityGo f base maxD (m + 1) (attempt + 1)).sleeps = _
        rw [ihs]
        have hidx : ∀ i, attempt + 1 + i = attempt + (i + 1) := fun i => by omega
        simp only [hidx, Nat.add_sub_cancel]
        exact cons_map_range_shift
          (fun i => max 0 (min (base * 2 ^ (attempt + i)) maxD)) m

/-- C3 (amended).  An error classified non-retryable by the variant's own
classifier is attempted exactly once, propagated as-is, with no sleep:
`is_retryable_error` for the custom variant, exception-type membership
for the tenacity variant.  The classifiers differ on a 4xx
`RetryableHTTPError`: non-retryable to the former, retried by the latter. -/
theorem nonretryable_error_single_attempt {α : Type} (f : ℕ → Except PyError α)
    (e : PyError) (base maxD : ℚ) (jit : ℕ → ℚ) (m : ℕ)
    (hm : 1 ≤ m) (hf : f 0 = Except.error e) :
    (is_retryable_error e = false →
      (retry_with_custom_backoff f base jit m).result = Except.error e ∧
      (retry_with_custom_backoff f base jit m).calls = 1 ∧
      (retry_with_custom_backoff f base jit m).sleeps = []) ∧
    (tenacityRetryType e = false →
      (retry_with_tenacity f base maxD m).result = Except.error e ∧
      (retry_with_tenacity f base maxD m).calls = 1 ∧
      (retry_with_tenacity f base maxD m).sleeps = []) := by
  obtain ⟨k, rfl⟩ : ∃ k, m = k + 1 := ⟨m - 1, by omega⟩
  constructor
  · intro he
    simp [retry_with_custom_backoff, customBackoffGo, hf, he]
  · intro he
    simp [retry_with_tenacity, tenacityGo, hf, he]

/-- Witness for C3 (amended): a plain exception is attempted once by both
variants. -/
theorem nonretryable_error_single_attempt_witness :
    (retry_with_custom_backoff failingOther 1 zeroJitter 3).calls = 1 ∧
    (retry_with_tenacity failingOther 1 10 3).calls = 1 := by
  have h := nonretryable_error_single_attempt failingOther
    (PyError.other "Bad Request") 1 10 zeroJitter 3 (by omega) rfl
  exact ⟨(h.1 rfl).2.1, (h.2 rfl).2.1⟩

/-- Counterexample to C3 as stated: `RetryableHTTPError(404, ...)` is
classified non-retryable (`is_retryable_error` is false on it), yet the
tenacity variant — which retries on exception type alone — invokes an
operation failing with it 3 times under `max_attempts=3`, not once. -/
theorem tenacity_retries_4xx_counterexample :
    is_retryable_error (PyError.retryableHTTP 404 "Not Found") = false ∧
    (retry_with_tenacity failing404 1 10 3).calls = 3 := by
  exact ⟨rfl, rfl⟩

/-- C4 (amended).  Under always-retryable failure: the custom variant's
k-th sleep (0-based) is exactly `baseDelay * 2^k + jitter_k` with no
`maxDelay` cap — there is no `max_delay` parameter at all — while the
tenacity variant's k-th sleep is `max(0, min(baseDelay * 2^k, maxDelay))`
with no jitter, hence never exceeding a non-negative `maxDelay`. -/
theorem backoff_delay_schedule {α : Type} (f : ℕ → Except PyError α)
    (base maxD : ℚ) (jit : ℕ → ℚ) (m : ℕ) (hm : 1 ≤ m)
    (hf : ∀ k, ∃ e, f k = Except.error e ∧ is_retryable_error e = true) :
    (retry_with_custom_backoff f base jit m).sleeps =
      (List.range (m - 1)).map (fun i => base * 2 ^ i + jit i) ∧
    (retry_with_tenacity f base maxD m).sleeps =
      (List.range (m - 1)).map (fun i => max 0 (min (base * 2 ^ i) maxD)) ∧
    (0 ≤ maxD → ∀ d ∈ (retry_with_tenacity f base maxD m).sleeps, d ≤ maxD) := by
  simp only [retry_with_custom_backoff, retry_with_tenacity]
  have hc := customBackoffGo_allFail f base jit m hf m 0 hm
  have hf' : ∀ k, ∃ e, f k = Except.error e ∧ tenacityRetryType e = true := by
    intro k
    obtain ⟨e, h1, h2⟩ := hf k
    exact ⟨e, h1, retryable_tenacityType e h2⟩
  have ht := tenacityGo_allFail f base maxD hf' m 0 hm
  refine ⟨?_, ?_, ?_⟩
  · rw [hc.2.2.1]
    simp only [Nat.zero_add]
  · rw [ht.2]
    simp only [Nat.zero_add]
  · intro hD d hd
    rw [ht.2] at hd
    simp only [List.mem_map] at hd
    obtain ⟨i, _, rfl⟩ := hd
    exact max_le hD (min_le_right _ _)

/-- Witness for C4 (amended): three always-failing attempts with
`base_delay=1`: custom sleeps `[1, 2]` (zero jitter drawn), tenacity
sleeps `[1, 2]` capped by `max_delay=10`. -/
theorem backoff_delay_schedule_witness :
    (retry_with_custom_backoff failingTimeout 1 zeroJitter 3).sleeps =
      (List.range 2).map (fun i => 1 * 2 ^ i + zeroJitter i) ∧
    (retry_with_tenacity failingTimeout 1 10 3).sleeps =
      (List.range 2).map (fun i => max 0 (min (1 * 2 ^ i) 10)) := by
  have h := backoff_delay_schedule failingTimeout 1 10 zeroJitter 3 (by omega)
    (fun k => ⟨PyError.timeout "Request timeout", rfl, rfl⟩)
  exact ⟨h.1, h.2.1⟩

/-- Counterexample to C4 as stated: with `base_delay=1` and six
always-retryable failures, the custom variant's fifth sleep is 16 —
`base * 2^4 + jitter` uncapped — whereas the claimed formula
`min(maxDelay, base * 2^4 + jitter)` gives 10 for the sibling default
`max_delay=10`. -/
theorem custom_backoff_uncapped_counterexample :
    (retry_with_custom_backoff failingTimeout 1 zeroJitter 6).sleeps.getD 4 0 = 16 ∧
    min (10 : ℚ) (1 * 2 ^ 4 + zeroJitter 4) = 10 := by
  constructor
  · norm_num [retry_with_custom_backoff, customBackoffGo, failingTimeout,
      zeroJitter, is_retryable_error]
  · norm_num [zeroJitter]

/-- C5.  An operation that fails retryably on every invocation is invoked
exactly `maxAttempts` times by the custom executor, which then propagates
the final invocation's error unchanged while its exhaustion log record
carries the total attempt count. -/
theorem retryable_exhaustion_custom {α : Type} (f : ℕ → Except PyError α)
    (base : ℚ) (jit : ℕ → ℚ) (m : ℕ) (hm : 1 ≤ m)
    (hf : ∀ k, ∃ e, f k = Except.error e ∧ is_retryable_error e = true) :
    (retry_with_custom_backoff f base jit m).calls = m ∧
    (retry_with_custom_backoff f base jit m).result = f (m - 1) ∧
    LogEvent.allAttemptsFailed m m ∈ (retry_with_custom_backoff f base jit m).logs := by
  simp only [retry_with_custom_backoff]
  have h := customBackoffGo_allFail f base jit m hf m 0 hm
  refine ⟨h.1, ?_, ?_⟩
  · rw [h.2.1]
    congr 1
    omega
  · have hl := h.2.2.2
    rwa [Nat.zero_add] at hl

/-- Witness for C5: two always-timing-out attempts under
`max_attempts=2`: both consumed, the last timeout propagated, exhaustion
logged with final attempt 2 of 2. -/
theorem retryable_exhaustion_custom_witness :
    (retry_with_custom_backoff failingTimeout 1 zeroJitter 2).calls = 2 ∧
    (retry_with_custom_backoff failingTimeout 1 zeroJitter 2).result =
      Except.error (PyError.timeout "Request timeout") ∧
    LogEvent.allAttemptsFailed 2 2 ∈
      (retry_with_custom_backoff failingTimeout 1 zeroJitter 2).logs := by
  have h := retryable_exhaustion_custom failingTimeout 1 zeroJitter 2 (by omega)
    (fun k => ⟨PyError.timeout "Request timeout", rfl, rfl⟩)
  exact ⟨h.1, h.2.1, h.2.2⟩

/-- Generation loop under attempts that all fail (in the transport or in
validation): with `fuel ≥ 1` iterations left starting at `attempt`, every
iteration calls the api once, and the loop ends in a failure response
whose retry count grows by `fuel`. -/
theorem generateGo_allFail (api : ℕ → Except GenError String)
    (validate : String → Except GenError TweetResponse) (maxRetries : ℕ) :
    ∀ fuel attempt rc lastError, 1 ≤ fuel →
      (∀ k, k < attempt + fuel → ∃ e, (api k).bind validate = Except.error e) →
      (generateGo api validate maxRetries fuel attempt rc lastError).2 = fuel ∧
      (generateGo api validate maxRetries fuel attempt rc lastError).1.success = false ∧
      (generateGo api validate maxRetries fuel attempt rc lastError).1.retry_count =
        rc + fuel := by
  intro fuel
  induction fuel with
  | zero => intro attempt rc lastError h; exact absurd h (by omega)
  | succ n ih =>
    intro attempt rc lastError _ hf
    obtain ⟨e, hfe⟩ := hf attempt (by omega)
    rcases Nat.eq_zero_or_pos n with hn | hn
    · subst hn
      simp [generateGo, hfe]
    · have ihn := ih (attempt + 1) (rc + 1) (some e) hn
        (fun k hk => hf k (by omega))
      simp only [generateGo, hfe]
      rw [if_neg (by omega : ¬ n = 0)]
      exact ⟨by rw [ihn.1], ihn.2.1, by rw [ihn.2.2]; omega⟩

/-- C6 (amended).  `generate_tweet_with_retry` retries every failure
alike — validation/parse failures and transport errors, 4xx-equivalent
client errors included, since the loop catches any `Exception` — re-calling
the api up to `max_retries` further times; a failure outcome is surfaced
only once all `max_retries + 1` attempts have failed, carrying that
attempt count. -/
theorem generation_retries_all_failures (api : ℕ → Except GenError String)
    (validate : String → Except GenError TweetResponse) (m : ℕ)
    (hf : ∀ k, k ≤ m → ∃ e, (api k).bind validate = Except.error e) :
    (generate_tweet_with_retry api validate m).2 = m + 1 ∧
    (generate_tweet_with_retry api validate m).1.success = false ∧
    (generate_tweet_with_retry api validate m).1.retry_count = m + 1 := by
  have h := generateGo_allFail api validate m (m + 1) 0 0 none (by omega)
    (fun k hk => hf k (by omega))
  exact ⟨h.1, h.2.1, by rw [generate_tweet_with_retry, h.2.2]; omega⟩

/-- Witness for C6 (amended): a transport that always returns HTTP 404,
`max_retries = 1`: two api calls, then a failure outcome counting 2
attempts. -/
theorem generation_retries_all_failures_witness :
    (generate_tweet_with_retry api404 unusedValidator 1).2 = 2 ∧
    (generate_tweet_with_retry api404 unusedValidator 1).1.success = false ∧
    (generate_tweet_with_retry api404 unusedValidator 1).1.retry_count = 2 :=
  generation_retries_all_failures api404 unusedValidator 1
    (fun _ _ => ⟨GenError.apiError 404, rfl⟩)

/-- Counterexample to C6 as stated: `call_api` turns a 4xx response into
a plain `Exception`, and `generate_tweet_with_retry` catches every
exception alike, so an operation whose transport always answers 404 is
attempted 3 times under the default `max_retries = 2` — the
4xx-equivalent error is retried, not surfaced immediately after one
attempt. -/
theorem client_error_retried_counterexample :
    api404 0 = Except.error (GenError.apiError 404) ∧
    (generate_tweet_with_retry api404 unusedValidator 2).2 = 3 ∧
    (generate_tweet_with_retry api404 unusedValidator 2).1.retry_count = 3 :=
  ⟨rfl, rfl, rfl⟩

/-- C7 (amended).  `remaining_requests` equals the Python `int`
truncation of the refilled token count rounded to two decimal places
(`round`-half-even) — not its floor. -/
theorem remaining_requests_eq_trunc_round (now : ℚ) (rl : RateLimiter) :
    (rl.get_rate_limit_status now).1.remaining_requests =
      pyInt (pyRound2 (rl.bucket.refillTokens now).tokens) := rfl

/-- Counterexample to C7 as stated: drain the default 10-per-minute
limiter at time 0, then ask for status at time 5.994 s: the refilled
token count is 0.999, whose floor is 0, yet `remaining_requests` is 1
because `round(0.999, 2) = 1.0` before the `int` truncation. -/
theorem remaining_requests_not_floor_counterexample :
    (((RateLimiter.init 10 0).bucket.consume 0 10).2).tokens = 0 ∧
    (RateLimiter.get_rate_limit_status (2997/500)
      { requests_per_minute := 10,
        bucket := ((RateLimiter.init 10 0).bucket.consume 0 10).2 }).1.remaining_requests = 1 ∧
    (({ requests_per_minute := 10,
        bucket := ((RateLimiter.init 10 0).bucket.consume 0 10).2 } :
        RateLimiter).bucket.refillTokens (2997/500)).tokens = 999/1000 ∧
    ⌊(999 : ℚ)/1000⌋ = 0 := by
  refine ⟨?_, ?_, ?_, ?_⟩
  · norm_num [RateLimiter.init, TokenBucket.init, TokenBucket.consume,
      TokenBucket.refillTokens]
  · norm_num [RateLimiter.init, RateLimiter.get_rate_limit_status,
      TokenBucket.init, TokenBucket.consume, TokenBucket.refillTokens,
      TokenBucket.get_status, pyRound2, pyRound1, pyRoundHalfEven, pyInt,
      min_def, max_def]
  · norm_num [RateLimiter.init, TokenBucket.init, TokenBucket.consume,
      TokenBucket.refillTokens, min_def]
  · norm_num [Int.floor_eq_iff]

/-- C8.  With the tweet field passing its own validation and the declared
count positive: a declared word count deviating from the actual
whitespace-token count by more than 2 fails with the word-count-mismatch
error; within tolerance 2 (and a valid sentiment) validation succeeds
with the stripped tweet. -/
theorem word_count_validation (t : String) (w : ℤ) (s : String)
    (h1 : 1 ≤ t.length) (h2 : t.length ≤ 280) (h3 : pyStrip t ≠ "")
    (hw : 0 < w) :
    (2 < |w - (pySplitCount (pyStrip t) : ℤ)| →
      TweetResponse.validate t w s =
        Except.error (TweetValidationError.wordCountMismatch w (pySplitCount (pyStrip t)))) ∧
    (|w - (pySplitCount (pyStrip t) : ℤ)| ≤ 2 →
      (s = "positive" ∨ s = "negative" ∨ s = "neutral") →
      TweetResponse.validate t w s =
        Except.ok { tweet := pyStrip t, word_count := w, sentiment := s }) := by
  have htw : validateTweetField t = Except.ok (pyStrip t) := by
    unfold validateTweetField
    rw [if_neg (by omega : ¬ t.length < 1), if_neg (by omega : ¬ 280 < t.length),
      if_neg h3]
  constructor
  · intro hmis
    have hwc : validateWordCountField (some (pyStrip t)) w =
        Except.error (TweetValidationError.wordCountMismatch w (pySplitCount (pyStrip t))) := by
      unfold validateWordCountField
      rw [if_neg (by omega : ¬ w ≤ 0)]
      dsimp only
      rw [if_pos hmis]
    simp only [TweetResponse.validate, htw, hwc]
  · intro hok hs
    have hwc : validateWordCountField (some (pyStrip t)) w = Except.ok w := by
      unfold validateWordCountField
      rw [if_neg (by omega : ¬ w ≤ 0)]
      dsimp only
      rw [if_neg (not_lt.mpr hok)]
    have hsen : validateSentimentField s = Except.ok s := by
      unfold validateSentimentField
      rw [if_pos hs]
    simp only [TweetResponse.validate, htw, hwc, hsen]

/-- Witness for C8: the 3-word text with declared count 10 fails with the
mismatch error; with declared count 3 it validates. -/
theorem word_count_validation_witness :
    TweetResponse.validate "AI is amazing" 10 "positive" =
      Except.error (TweetValidationError.wordCountMismatch 10 3) ∧
    TweetResponse.validate "AI is amazing" 3 "positive" =
      Except.ok { tweet := "AI is amazing", word_count := 3, sentiment := "positive" } := by
  constructor
  · have h := (word_count_validation "AI is amazing" 10 "positive"
      (by decide) (by decide) (by decide) (by decide)).1 (by decide)
    rw [h]
    rfl
  · exact (word_count_validation "AI is amazing" 3 "positive"
      (by decide) (by decide) (by decide) (by decide)).2 (by decide) (Or.inl rfl)

/-- `_validate_variables` succeeds exactly when the lowercased tone is an
allowed tone, `max_words` lies in [5, 50], and the stripped topic has at
least 2 characters. -/
theorem validateTweetVariables_isOk (topic tone : String) (mw : ℤ) :
    (validateTweetVariables topic tone mw).isOk = true ↔
      (VALID_TONES.contains (pyLower tone) = true ∧ 5 ≤ mw ∧ mw ≤ 50 ∧
        2 ≤ (pyStrip topic).length) := by
  unfold validateTweetVariables
  by_cases h1 : VALID_TONES.contains (pyLower tone) = true
  · rw [if_neg (not_not_intro h1)]
    by_cases h2 : 5 ≤ mw ∧ mw ≤ 50
    · rw [if_neg (not_not_intro h2)]
      by_cases h3 : pyStrip topic = "" ∨ (pyStrip topic).length < 2
      · rw [if_pos h3]
        simp only [Except.isOk, Except.toBool]
        constructor
        · intro h; simp at h
        · rintro ⟨-, -, -, hlen⟩
          rcases h3 with he | hlt
          · have h0 : (pyStrip topic).length = 0 := by rw [he]; rfl
            omega
          · omega
      · rw [if_neg h3]
        simp only [Except.isOk, Except.toBool, true_iff]
        rw [not_or] at h3
        exact ⟨h1, h2.1, h2.2, by omega⟩
    · rw [if_pos h2]
      simp only [Except.isOk, Except.toBool]
      constructor
      · intro h; simp at h
      · rintro ⟨-, hm1, hm2, -⟩
        exact absurd ⟨hm1, hm2⟩ h2
  · rw [if_pos h1]
    simp only [Except.isOk, Except.toBool]
    constructor
    · intro h; simp at h
    · rintro ⟨hc, -⟩
      exact absurd hc h1

/-- C9.  Prompt building succeeds exactly when the tone (after
lowercasing — the code lowercases before the membership test) is in the
fixed allowed set, `maxWords` lies in [5, 50], and the trimmed topic has
at least 2 characters; the returned prompt contains the topic and the
(lowercased) tone as substrings. -/
theorem prompt_build_iff (topic tone : String) (mw : ℤ) :
    ((generate_tweet_prompt topic tone mw).isOk = true ↔
      (VALID_TONES.contains (pyLower (pyLower tone)) = true ∧
        5 ≤ mw ∧ mw ≤ 50 ∧ 2 ≤ (pyStrip topic).length)) ∧
    (∀ p, generate_tweet_prompt topic tone mw = Except.ok p →
      (∃ u v, p = u ++ topic ++ v) ∧ ∃ u v, p = u ++ pyLower tone ++ v) := by
  constructor
  · rcases hv : validateTweetVariables topic (pyLower tone) mw with e | u
    · simp only [generate_tweet_prompt, hv, Except.isOk, Except.toBool]
      constructor
      · intro h; simp at h
      · intro hc
        have hok := (validateTweetVariables_isOk topic (pyLower tone) mw).mpr hc
        rw [hv] at hok
        simp [Except.isOk, Except.toBool] at hok
    · simp only [generate_tweet_prompt, hv, Except.isOk, Except.toBool, true_iff]
      exact (validateTweetVariables_isOk topic (pyLower tone) mw).mp (by rw [hv]; rfl)
  · intro p hp
    rcases hv : validateTweetVariables topic (pyLower tone) mw with e | u
    · simp only [generate_tweet_prompt, hv] at hp
      exact Except.noConfusion hp
    · simp only [generate_tweet_prompt, hv, Except.ok.injEq] at hp
      subst hp
      constructor
      · refine ⟨"Generate a " ++ pyLower tone ++ " tweet about ",
          ". \nThe tweet should be engaging and appropriate for social media.\nMaximum words: " ++
            toString mw ++
            "\nRequirements:\n- Keep it concise and impactful\n- Use appropriate tone throughout\n- Make it shareable and relevant\n- Do not include hashtags or mentions\n\nTweet:", ?_⟩
        simp only [tweetPromptText, String.append_assoc]
      · refine ⟨"Generate a ",
          " tweet about " ++ topic ++
            ". \nThe tweet should be engaging and appropriate for social media.\nMaximum words: " ++
            toString mw ++
            "\nRequirements:\n- Keep it concise and impactful\n- Use appropriate tone throughout\n- Make it shareable and relevant\n- Do not include hashtags or mentions\n\nTweet:", ?_⟩
        simp only [tweetPromptText, String.append_assoc]

/-- Witness for C9: `build("Coffee", "humorous", 20)` succeeds and its
prompt contains both "Coffee" and "humorous". -/
theorem prompt_build_iff_witness :
    (generate_tweet_prompt "Coffee" "humorous" 20).isOk = true ∧
    (∃ u v, tweetPromptText "Coffee" "humorous" 20 = u ++ "Coffee" ++ v) ∧
    (∃ u v, tweetPromptText "Coffee" "humorous" 20 = u ++ "humorous" ++ v) := by
  have h := prompt_build_iff "Coffee" "humorous" 20
  refine ⟨h.1.mpr (by decide), ?_⟩
  exact h.2 (tweetPromptText "Coffee" "humorous" 20) rfl
